import Mathlib

/-!
Verification of the OneOps Ansible modules
(`lib/ansible/modules/cloud/oneops/oneops_component.py`,
`oneops_transition_platform.py`, `oneops_cloud_info.py`).

Each module is embedded as a pure function over an oracle describing the
results the remote OneOps API would return during one invocation, together
with the ordered trace of API calls the module issues.  The external
collaborators (`module_utils/oneops/oneops_api.py`,
`module_utils/common/dict_transformations.py`,
`module_utils/oneops/module_argument_spec.py`) are not part of the three
module files; where their behaviour decides a property they are modelled
from the specification, as marked in the doc comments below.
-/

/-- A JSON-like value as handled by the modules: the OneOps API returns
nested dictionaries of strings, numbers and lists. -/
inductive Value where
  | str : String → Value
  | num : Int → Value
  | list : List Value → Value
  | dict : List (String × Value) → Value

mutual

/-- Boolean structural equality of values (Python `==` on JSON-like data). -/
def Value.beq : Value → Value → Bool
  | .str a, .str b => a == b
  | .num a, .num b => a == b
  | .list as, .list bs => Value.beqListV as bs
  | .dict as, .dict bs => Value.beqFields as bs
  | _, _ => false

/-- Boolean structural equality of value lists. -/
def Value.beqListV : List Value → List Value → Bool
  | [], [] => true
  | a :: as, b :: bs => Value.beq a b && Value.beqListV as bs
  | _, _ => false

/-- Boolean structural equality of key-value field lists. -/
def Value.beqFields : List (String × Value) → List (String × Value) → Bool
  | [], [] => true
  | (k, v) :: as, (l, w) :: bs => k == l && Value.beq v w && Value.beqFields as bs
  | _, _ => false

end

mutual

theorem Value.beq_refl : ∀ a : Value, Value.beq a a = true
  | .str a => by simp [Value.beq]
  | .num a => by simp [Value.beq]
  | .list as => by simpa [Value.beq] using Value.beqListV_refl as
  | .dict as => by simpa [Value.beq] using Value.beqFields_refl as

theorem Value.beqListV_refl : ∀ as : List Value, Value.beqListV as as = true
  | [] => rfl
  | a :: as => by
      simp only [Value.beqListV, Bool.and_eq_true]
      exact ⟨Value.beq_refl a, Value.beqListV_refl as⟩

theorem Value.beqFields_refl : ∀ as : List (String × Value), Value.beqFields as as = true
  | [] => rfl
  | (k, v) :: as => by
      simp only [Value.beqFields, Bool.and_eq_true, beq_self_eq_true, true_and]
      exact ⟨Value.beq_refl v, Value.beqFields_refl as⟩

end

mutual

theorem Value.beq_sound : ∀ a b : Value, Value.beq a b = true → a = b
  | .str a, .str b => by simp [Value.beq]
  | .str a, .num b => by simp [Value.beq]
  | .str a, .list bs => by simp [Value.beq]
  | .str a, .dict bs => by simp [Value.beq]
  | .num a, .str b => by simp [Value.beq]
  | .num a, .num b => by simp [Value.beq]
  | .num a, .list bs => by simp [Value.beq]
  | .num a, .dict bs => by simp [Value.beq]
  | .list as, .str b => by simp [Value.beq]
  | .list as, .num b => by simp [Value.beq]
  | .list as, .list bs => by
      simp only [Value.beq, Value.list.injEq]
      exact Value.beqListV_sound as bs
  | .list as, .dict bs => by simp [Value.beq]
  | .dict as, .str b => by simp [Value.beq]
  | .dict as, .num b => by simp [Value.beq]
  | .dict as, .list bs => by simp [Value.beq]
  | .dict as, .dict bs => by
      simp only [Value.beq, Value.dict.injEq]
      exact Value.beqFields_sound as bs

theorem Value.beqListV_sound : ∀ as bs : List Value, Value.beqListV as bs = true → as = bs
  | [], [] => by simp
  | [], _ :: _ => by simp [Value.beqListV]
  | _ :: _, [] => by simp [Value.beqListV]
  | a :: as, b :: bs => by
      simp only [Value.beqListV, Bool.and_eq_true, List.cons.injEq]
      intro h
      exact ⟨Value.beq_sound a b h.1, Value.beqListV_sound as bs h.2⟩

theorem Value.beqFields_sound :
    ∀ as bs : List (String × Value), Value.beqFields as bs = true → as = bs
  | [], [] => by simp
  | [], _ :: _ => by simp [Value.beqFields]
  | _ :: _, [] => by simp [Value.beqFields]
  | (k, v) :: as, (l, w) :: bs => by
      simp only [Value.beqFields, Bool.and_eq_true, List.cons.injEq, Prod.mk.injEq,
        beq_iff_eq]
      intro h
      exact ⟨⟨h.1.1, Value.beq_sound v w h.1.2⟩, Value.beqFields_sound as bs h.2⟩

end

instance : DecidableEq Value := fun a b =>
  if h : Value.beq a b = true then isTrue (Value.beq_sound a b h)
  else isFalse (fun e => h (e ▸ Value.beq_refl a))

/-- A Python dictionary with string keys, embedded as an association list
(keys are unique in every dictionary the modules build or receive). -/
abbrev Dict := List (String × Value)

/-- Python `d.pop(k, None)`: remove the entry for key `k` if present.  With
unique keys this is exactly what `dict.pop` does to the dictionary. -/
def popKey (d : Dict) (k : String) : Dict :=
  d.filter (fun kv => kv.1 ≠ k)

/-- A OneOps release object as used by `commit_latest_design_release`:
the code reads the fields `releaseId` and `releaseState`. -/
structure Release where
  releaseId : Nat
  releaseState : String
deriving DecidableEq

/-- One remote API call, in the order the module issues them.
`module_utils/oneops/oneops_api.py` is not under `src/`; the calls listed
here are the collaborator interface the three modules consume. -/
inductive ApiCall where
  | componentExistsCall
  | componentGetCall
  | componentUpsertCall
  | componentDeleteCall
  | releaseLatestCall
  | releaseCommitCall : Nat → ApiCall
  | platformExistsCall
  | platformEnableCall
  | platformDisableCall
  | cloudGetCall
deriving DecidableEq, Repr

/-- Whether a call requests a mutation from the remote system (upsert,
delete, enable, disable, commit); existence checks and gets are read-only. -/
def ApiCall.isMutating : ApiCall → Bool
  | .componentUpsertCall => true
  | .componentDeleteCall => true
  | .releaseCommitCall _ => true
  | .platformEnableCall => true
  | .platformDisableCall => true
  | _ => false

/-- Whether a call is a release commit. -/
def ApiCall.isCommitCall : ApiCall → Bool
  | .releaseCommitCall _ => true
  | _ => false

/-- Modelled from the spec: the results the external OneOps API collaborator
(`module_utils/oneops/oneops_api.py`, not under `src/`) returns during one
invocation.  Each field is the value the corresponding read or upsert
endpoint yields; `latestRelease = none` models the `AttributeError` path of
`OneOpsRelease.latest`, the "not applicable" signal of the spec.
`cloudGet` is a triple because `OneOpsCloud.get` returns a tuple of which
`oneops_cloud_info.run_module` uses only the first component. -/
structure OneOpsApi where
  componentExistsResult : Bool
  componentGetResult : Dict
  componentUpsertResult : Dict
  latestRelease : Option Release
  platformExistsResult : Bool
  cloudGetResult : Dict × Nat × Nat

/-- The result seeded and returned by `oneops_component.run_module`:
`state = dict(changed=False, component=dict())`, updated along the way. -/
structure ComponentResult where
  changed : Bool
  component : Dict
deriving DecidableEq

/-- The result seeded and returned by `oneops_transition_platform.run_module`:
`state = dict(changed=False, platform=dict())`. -/
structure PlatformResult where
  changed : Bool
  platform : Dict
deriving DecidableEq

/-- The result seeded and returned by `oneops_cloud_info.run_module`:
`state = dict(changed=False, cloud=dict())`. -/
structure CloudResult where
  changed : Bool
  cloud : Dict
deriving DecidableEq

/-- Modelled from the spec:
`ansible.module_utils.common.dict_transformations.recursive_diff` is not
under `src/`.  The spec says "Compute a structural diff between pre-image
and post-image; changed = diff is non-empty", so the diff is `none` exactly
when the two dictionaries are structurally equal, and otherwise carries the
two differing images. -/
def recursive_diff (d1 d2 : Dict) : Option (Dict × Dict) :=
  if d1 = d2 then none else some (d1, d2)

/-- Embedding of `oneops_component.commit_latest_design_release(module, state)`:
look up the latest design release (`none` models the caught
`AttributeError`); if one is found and its `releaseState` is `open`, set
`changed = True` in the state and commit it by id.  Returns the updated
state and the API calls issued. -/
def commit_latest_design_release (api : OneOpsApi) (state : ComponentResult) :
    ComponentResult × List ApiCall :=
  match api.latestRelease with
  | some release =>
      if release.releaseState = "open" then
        ({ state with changed := true },
         [ApiCall.releaseLatestCall, ApiCall.releaseCommitCall release.releaseId])
      else (state, [ApiCall.releaseLatestCall])
  | none => (state, [ApiCall.releaseLatestCall])

/-- Embedding of `oneops_component.ensure_component(module, state)`: fetch the original
component if it exists, always upsert, pop `dependents` and `dependsOn`
from the old component only, diff old against new, set
`changed = diff is not None` and `component = new`, then run
`commit_latest_design_release`. -/
def ensure_component (api : OneOpsApi) (state : ComponentResult) :
    ComponentResult × List ApiCall :=
  let old0 : Dict := []
  let fetched : Dict × List ApiCall :=
    if api.componentExistsResult then
      (api.componentGetResult, [ApiCall.componentGetCall])
    else (old0, [])
  let old1 := fetched.1
  let new_component := api.componentUpsertResult
  let old2 := popKey old1 "dependents"
  let old_component := popKey old2 "dependsOn"
  let diff := recursive_diff old_component new_component
  let state1 := { state with changed := diff.isSome, component := new_component }
  let committed := commit_latest_design_release api state1
  (committed.1,
   ApiCall.componentExistsCall :: fetched.2 ++ [ApiCall.componentUpsertCall] ++ committed.2)

/-- Embedding of `oneops_component.delete_component(module, state)`: if the component
exists, fetch it for reporting, delete it, and report `changed = True` with
the pre-delete snapshot; otherwise exit with the seeded state. -/
def delete_component (api : OneOpsApi) (state : ComponentResult) :
    ComponentResult × List ApiCall :=
  if api.componentExistsResult then
    ({ state with changed := true, component := api.componentGetResult },
     [ApiCall.componentExistsCall, ApiCall.componentGetCall, ApiCall.componentDeleteCall])
  else (state, [ApiCall.componentExistsCall])

/-- The body of `oneops_component.run_module` after module construction:
seed the state, dispatch on `module.params["component"]["state"]`, and for
any other state value fall through to the check-mode test and the final
`exit_json` (both of which return the seeded state with no calls). -/
def component_run_module_body (check_mode : Bool) (component_state : String)
    (api : OneOpsApi) : ComponentResult × List ApiCall :=
  let state : ComponentResult := { changed := false, component := [] }
  if component_state = "present" then ensure_component api state
  else if component_state = "absent" then delete_component api state
  else if check_mode then (state, [])
  else (state, [])

/-- Modelled from the spec: the argument-spec validation performed at
module construction (`module_utils/oneops/module_argument_spec.py` is not
under `src/`).  The spec requires that "any state value outside the
recognized set is a caller contract violation and must fail fast with a
validation error rather than silently no-op", with no remote calls
attempted; the recognized set for the component module is
`present`/`absent`.  A failed validation yields an error and no trace. -/
def component_run_module (check_mode : Bool) (component_state : String)
    (api : OneOpsApi) : Except String (ComponentResult × List ApiCall) :=
  if component_state = "present" ∨ component_state = "absent" then
    Except.ok (component_run_module_body check_mode component_state api)
  else Except.error "value of component.state must be one of: present, absent"

/-- Embedding of `oneops_transition_platform.enable_platform(module, state)`: if the
platform exists, set `changed = True` and call enable; the `platform`
field of the state is never updated (it stays the seeded empty dict). -/
def enable_platform (api : OneOpsApi) (state : PlatformResult) :
    PlatformResult × List ApiCall :=
  if api.platformExistsResult then
    ({ state with changed := true },
     [ApiCall.platformExistsCall, ApiCall.platformEnableCall])
  else (state, [ApiCall.platformExistsCall])

/-- Embedding of `oneops_transition_platform.disable_platform(module, state)`:
mirror image of `enable_platform` with the disable call. -/
def disable_platform (api : OneOpsApi) (state : PlatformResult) :
    PlatformResult × List ApiCall :=
  if api.platformExistsResult then
    ({ state with changed := true },
     [ApiCall.platformExistsCall, ApiCall.platformDisableCall])
  else (state, [ApiCall.platformExistsCall])

/-- The body of `oneops_transition_platform.run_module` after module
construction: seed the state, dispatch on
`module.params["platform"]["state"]`, and for any other state value fall
through to the check-mode test and the final `exit_json`. -/
def platform_run_module_body (check_mode : Bool) (platform_state : String)
    (api : OneOpsApi) : PlatformResult × List ApiCall :=
  let state : PlatformResult := { changed := false, platform := [] }
  if platform_state = "enabled" then enable_platform api state
  else if platform_state = "disabled" then disable_platform api state
  else if check_mode then (state, [])
  else (state, [])

/-- Modelled from the spec: the argument-spec validation at module
construction for the transition-platform module, recognized set
`enabled`/`disabled` (see `component_run_module`). -/
def platform_run_module (check_mode : Bool) (platform_state : String)
    (api : OneOpsApi) : Except String (PlatformResult × List ApiCall) :=
  if platform_state = "enabled" ∨ platform_state = "disabled" then
    Except.ok (platform_run_module_body check_mode platform_state api)
  else Except.error "value of platform.state must be one of: enabled, disabled"

/-- Embedding of `oneops_cloud_info.run_module`: seed
`state = dict(changed=False, cloud=dict())`, call `OneOpsCloud.get`
(destructuring `cloud, _, _`), store the cloud object, exit. -/
def cloud_info_run_module (api : OneOpsApi) : CloudResult × List ApiCall :=
  let state : CloudResult := { changed := false, cloud := [] }
  let cloud := api.cloudGetResult.1
  ({ state with cloud := cloud }, [ApiCall.cloudGetCall])

/-! Concrete API oracles used by the counterexamples, code-bug evaluations
and witnesses below. -/

/-- An invocation in which the component already exists and the upsert
returns exactly the stored component, which carries a `dependents` field:
pre-image and post-image are structurally identical. -/
def c1_api : OneOpsApi :=
  { componentExistsResult := true
    componentGetResult := [("ciName", Value.str "svc"), ("dependents", Value.list [Value.str "d1"])]
    componentUpsertResult := [("ciName", Value.str "svc"), ("dependents", Value.list [Value.str "d1"])]
    latestRelease := none
    platformExistsResult := false
    cloudGetResult := ([], 0, 0) }

/-- An invocation in which no component exists and the upsert call returns
an empty dictionary, with no design release pending. -/
def c2_api : OneOpsApi :=
  { componentExistsResult := false
    componentGetResult := []
    componentUpsertResult := []
    latestRelease := none
    platformExistsResult := false
    cloudGetResult := ([], 0, 0) }

/-- An invocation in which no component exists and the upsert call returns
a non-empty component. -/
def c2_witness_api : OneOpsApi :=
  { componentExistsResult := false
    componentGetResult := []
    componentUpsertResult := [("ciName", Value.str "svc-a")]
    latestRelease := none
    platformExistsResult := false
    cloudGetResult := ([], 0, 0) }

/-- An invocation with an open design release pending. -/
def c4_api : OneOpsApi :=
  { componentExistsResult := true
    componentGetResult := [("ciName", Value.str "svc")]
    componentUpsertResult := [("ciName", Value.str "svc")]
    latestRelease := some { releaseId := 7, releaseState := "open" }
    platformExistsResult := true
    cloudGetResult := ([], 0, 0) }

/-- An invocation in check mode: no component exists yet, the platform
exists, no release is pending. -/
def c5_api : OneOpsApi :=
  { componentExistsResult := false
    componentGetResult := []
    componentUpsertResult := [("ciName", Value.str "svc")]
    latestRelease := none
    platformExistsResult := true
    cloudGetResult := ([], 0, 0) }

/-- An arbitrary invocation environment for the validation witness. -/
def c6_api : OneOpsApi :=
  { componentExistsResult := true
    componentGetResult := [("ciName", Value.str "svc")]
    componentUpsertResult := [("ciName", Value.str "svc")]
    latestRelease := none
    platformExistsResult := true
    cloudGetResult := ([], 0, 0) }

/-- An invocation in which the component exists, for the absent path. -/
def c8_api : OneOpsApi :=
  { componentExistsResult := true
    componentGetResult := [("ciName", Value.str "svc")]
    componentUpsertResult := []
    latestRelease := none
    platformExistsResult := true
    cloudGetResult := ([], 0, 0) }

/-- An invocation in which the stored and upserted component agree exactly
(no diff) while an open release is pending. -/
def c9_api : OneOpsApi :=
  { componentExistsResult := true
    componentGetResult := [("ciName", Value.str "svc")]
    componentUpsertResult := [("ciName", Value.str "svc")]
    latestRelease := some { releaseId := 9, releaseState := "open" }
    platformExistsResult := false
    cloudGetResult := ([], 0, 0) }

/-! Helper lemmas shared by the claim theorems. -/

/-- The release committer never touches the `component` field of the state. -/
theorem commit_preserves_component (api : OneOpsApi) (st : ComponentResult) :
    (commit_latest_design_release api st).1.component = st.component := by
  unfold commit_latest_design_release
  cases api.latestRelease with
  | none => rfl
  | some r =>
      by_cases h : r.releaseState = "open" <;> simp [h]

/-- The release committer never lowers the `changed` flag. -/
theorem commit_changed_mono (api : OneOpsApi) (st : ComponentResult)
    (h : st.changed = true) : (commit_latest_design_release api st).1.changed = true := by
  unfold commit_latest_design_release
  cases api.latestRelease with
  | none => exact h
  | some r =>
      by_cases ho : r.releaseState = "open" <;> simp [ho, h]

/-- When an open release is found the committer reports a change. -/
theorem commit_changed_of_open (api : OneOpsApi) (st : ComponentResult) (r : Release)
    (h : api.latestRelease = some r) (ho : r.releaseState = "open") :
    (commit_latest_design_release api st).1.changed = true := by
  unfold commit_latest_design_release
  rw [h]
  simp [ho]

/-! Claim theorems. -/

/-- C1: the claim says that with `state=present`, when the pre-upsert and
post-upsert components are structurally identical except possibly in
`dependents`/`dependsOn`, the module reports `changed=false`, because those
fields are removed before the diff.  The code removes them from the
pre-image only: at `c1_api` the two components are literally identical (both
carry a `dependents` field), yet the reported result is `changed=true`,
because the stripped pre-image no longer matches the post-image. -/
theorem c1_identical_component_still_reports_changed :
    c1_api.componentGetResult = c1_api.componentUpsertResult ∧
    component_run_module false "present" c1_api =
      Except.ok
        ({ changed := true, component := c1_api.componentUpsertResult },
         [ApiCall.componentExistsCall, ApiCall.componentGetCall, ApiCall.componentUpsertCall,
          ApiCall.releaseLatestCall]) :=
  ⟨rfl, rfl⟩

/-- C2 counterexample: with `state=present`, no prior resource and an upsert
call returning an empty dictionary (and no pending release), the module
reports `changed=false`, not `changed=true` as the claim states: the diff of
the empty pre-image against the empty upsert result is empty. -/
theorem c2_creation_with_empty_upsert_not_changed :
    c2_api.componentExistsResult = false ∧
    component_run_module false "present" c2_api =
      Except.ok
        ({ changed := false, component := [] },
         [ApiCall.componentExistsCall, ApiCall.componentUpsertCall,
          ApiCall.releaseLatestCall]) :=
  ⟨rfl, rfl⟩

/-- C2 amended: with `state=present`, when no prior resource exists and the
upsert call returns a non-empty resource, the module reports `changed=true`
and the resulting component is exactly the upsert result. -/
theorem c2_creation_reports_changed (check_mode : Bool) (api : OneOpsApi)
    (hex : api.componentExistsResult = false)
    (hne : api.componentUpsertResult ≠ []) :
    ∃ calls, component_run_module check_mode "present" api =
      Except.ok ({ changed := true, component := api.componentUpsertResult }, calls) := by
  have hdiff : recursive_diff [] api.componentUpsertResult =
      some ([], api.componentUpsertResult) := by
    unfold recursive_diff
    rw [if_neg]
    exact fun h => hne h.symm
  unfold component_run_module component_run_module_body ensure_component
  simp only [hex, if_true, if_false, Bool.false_eq_true, popKey, List.filter_nil, hdiff,
    Option.isSome_some]
  unfold commit_latest_design_release
  cases hrel : api.latestRelease with
  | none => exact ⟨_, rfl⟩
  | some r =>
      by_cases ho : r.releaseState = "open" <;> simp [ho]

/-- C2 amended, witness: a concrete creation with a non-empty upsert result
reports `changed=true` and returns the upsert result. -/
theorem c2_creation_reports_changed_witness :
    ∃ calls, component_run_module false "present" c2_witness_api =
      Except.ok
        ({ changed := true, component := c2_witness_api.componentUpsertResult }, calls) :=
  c2_creation_reports_changed false c2_witness_api rfl (by decide)

/-- C3: with `state=absent`, if the component exists the module issues
exactly one delete call (after fetching the pre-delete snapshot) and reports
`changed=true` with that snapshot; if it does not exist, no delete call is
issued and the result is `changed=false` with an empty component. -/
theorem c3_absent_reconciliation (check_mode : Bool) (api : OneOpsApi) :
    component_run_module check_mode "absent" api =
      Except.ok
        (if api.componentExistsResult then
           ({ changed := true, component := api.componentGetResult },
            [ApiCall.componentExistsCall, ApiCall.componentGetCall,
             ApiCall.componentDeleteCall])
         else ({ changed := false, component := [] }, [ApiCall.componentExistsCall])) := by
  cases h : api.componentExistsResult <;>
    simp [component_run_module, component_run_module_body, delete_component, h]

/-- C4: the release committer issues a commit call if and only if a latest
release is found and its state is `open`, in which case it reports
`changed=true`; when no release is found or the release is not open it
issues no commit and returns the state untouched (a normal no-op, not an
error); and on the `absent` path neither the release lookup nor a commit is
ever issued. -/
theorem c4_commit_iff_open_release (api : OneOpsApi) (st : ComponentResult) :
    (((commit_latest_design_release api st).2.countP (fun c => c.isCommitCall) = 1) ↔
        (∃ r, api.latestRelease = some r ∧ r.releaseState = "open"))
    ∧ ((∃ r, api.latestRelease = some r ∧ r.releaseState = "open") →
        (commit_latest_design_release api st).1.changed = true)
    ∧ ((∀ r, api.latestRelease = some r → r.releaseState ≠ "open") →
        commit_latest_design_release api st = (st, [ApiCall.releaseLatestCall]))
    ∧ (∀ check_mode res tr,
        component_run_module check_mode "absent" api = Except.ok (res, tr) →
        tr.countP (fun c => c.isCommitCall || c == ApiCall.releaseLatestCall) = 0) := by
  refine ⟨?_, ?_, ?_, ?_⟩
  · unfold commit_latest_design_release
    cases hrel : api.latestRelease with
    | none => simp [List.countP_cons, List.countP_nil, ApiCall.isCommitCall]
    | some r =>
        by_cases ho : r.releaseState = "open" <;>
          simp [ho, List.countP_cons, List.countP_nil, ApiCall.isCommitCall]
  · rintro ⟨r, hrel, ho⟩
    exact commit_changed_of_open api st r hrel ho
  · intro hno
    unfold commit_latest_design_release
    cases hrel : api.latestRelease with
    | none => rfl
    | some r => simp [hno r hrel]
  · intro check_mode res tr h
    cases hex : api.componentExistsResult <;>
      simp [component_run_module, component_run_module_body, delete_component, hex] at h <;>
      rw [← h.2] <;> decide

/-- C4 witness: at a concrete invocation with an open release the committer
reports a change. -/
theorem c4_commit_iff_open_release_witness :
    (commit_latest_design_release c4_api { changed := false, component := [] }).1.changed
      = true :=
  (c4_commit_iff_open_release c4_api { changed := false, component := [] }).2.1
    ⟨{ releaseId := 7, releaseState := "open" }, rfl, rfl⟩

/-- C5: the claim says check mode short-circuits before any mutating call.
The code dispatches on the state value before ever consulting the
check-mode flag, so with `check_mode = true` and `state=present` the
component module still issues the (mutating) upsert call, and with
`state=enabled` the transition-platform module still issues the (mutating)
enable call: the check-mode gate sits after the two state branches and is
unreachable for recognized state values. -/
theorem c5_check_mode_still_mutates :
    component_run_module true "present" c5_api =
      Except.ok
        ({ changed := true, component := [("ciName", Value.str "svc")] },
         [ApiCall.componentExistsCall, ApiCall.componentUpsertCall,
          ApiCall.releaseLatestCall])
    ∧ platform_run_module true "enabled" c5_api =
      Except.ok
        ({ changed := true, platform := [] },
         [ApiCall.platformExistsCall, ApiCall.platformEnableCall])
    ∧ ApiCall.componentUpsertCall.isMutating = true
    ∧ ApiCall.platformEnableCall.isMutating = true :=
  ⟨rfl, rfl, rfl, rfl⟩

/-- C6: any state value outside the recognized set (`present`/`absent` for
the component module, `enabled`/`disabled` for the transition-platform
module) fails validation with an error, before any remote call: a failed
invocation carries no result and no call trace. -/
theorem c6_invalid_state_fails_validation (check_mode : Bool) (api : OneOpsApi)
    (s t : String)
    (h1 : s ≠ "present") (h2 : s ≠ "absent")
    (h3 : t ≠ "enabled") (h4 : t ≠ "disabled") :
    component_run_module check_mode s api =
        Except.error "value of component.state must be one of: present, absent"
    ∧ platform_run_module check_mode t api =
        Except.error "value of platform.state must be one of: enabled, disabled" := by
  constructor
  · simp [component_run_module, h1, h2]
  · simp [platform_run_module, h3, h4]

/-- C6 witness: a concrete invalid state value is rejected by both
modules. -/
theorem c6_invalid_state_fails_validation_witness :
    component_run_module false "bogus" c6_api =
        Except.error "value of component.state must be one of: present, absent"
    ∧ platform_run_module false "bogus" c6_api =
        Except.error "value of platform.state must be one of: enabled, disabled" :=
  c6_invalid_state_fails_validation false c6_api "bogus" "bogus"
    (by decide) (by decide) (by decide) (by decide)

/-- C7: with `state=enabled` or `state=disabled`, if the platform exists
the corresponding transition call is issued and the result is
`changed=true` regardless of the current platform state (the oracle carries
no notion of the platform already being enabled or disabled and the result
does not depend on one); if the platform does not exist, no mutating call
is issued and the result is `changed=false` with an empty platform. -/
theorem c7_transition_unconditional_change (check_mode : Bool) (api : OneOpsApi) :
    platform_run_module check_mode "enabled" api =
      Except.ok
        (if api.platformExistsResult then
           ({ changed := true, platform := [] },
            [ApiCall.platformExistsCall, ApiCall.platformEnableCall])
         else ({ changed := false, platform := [] }, [ApiCall.platformExistsCall]))
    ∧ platform_run_module check_mode "disabled" api =
      Except.ok
        (if api.platformExistsResult then
           ({ changed := true, platform := [] },
            [ApiCall.platformExistsCall, ApiCall.platformDisableCall])
         else ({ changed := false, platform := [] }, [ApiCall.platformExistsCall])) := by
  cases h : api.platformExistsResult <;>
    simp [platform_run_module, platform_run_module_body, enable_platform, disable_platform, h]

/-- The present path always issues the upsert call. -/
theorem upsert_mem_ensure_trace (api : OneOpsApi) (st : ComponentResult) :
    ApiCall.componentUpsertCall ∈ (ensure_component api st).2 := by
  unfold ensure_component
  simp

/-- C8: whenever an invocation of any of the three modules reports
`changed=true`, its call trace contains a mutating call (upsert, delete,
enable, disable or commit); the cloud-info module never reports a change at
all. -/
theorem c8_changed_implies_mutation (check_mode : Bool) (s : String) (api : OneOpsApi) :
    (∀ res tr, component_run_module check_mode s api = Except.ok (res, tr) →
        res.changed = true → tr.any ApiCall.isMutating = true)
    ∧ (∀ res tr, platform_run_module check_mode s api = Except.ok (res, tr) →
        res.changed = true → tr.any ApiCall.isMutating = true)
    ∧ (cloud_info_run_module api).1.changed = false := by
  refine ⟨?_, ?_, rfl⟩
  · intro res tr h hc
    by_cases hp : s = "present"
    · subst hp
      have h2 : ensure_component api { changed := false, component := [] } = (res, tr) := by
        simpa [component_run_module, component_run_module_body] using h
      have hmem := upsert_mem_ensure_trace api { changed := false, component := [] }
      rw [h2] at hmem
      exact List.any_eq_true.mpr ⟨ApiCall.componentUpsertCall, hmem, rfl⟩
    by_cases ha : s = "absent"
    · subst ha
      have h2 : delete_component api { changed := false, component := [] } = (res, tr) := by
        simpa [component_run_module, component_run_module_body, hp] using h
      unfold delete_component at h2
      cases hex : api.componentExistsResult <;> simp [hex] at h2
      · rw [← h2.1] at hc
        simp at hc
      · rw [← h2.2]
        decide
    · simp [component_run_module, hp, ha] at h
  · intro res tr h hc
    by_cases he : s = "enabled"
    · subst he
      have h2 : enable_platform api { changed := false, platform := [] } = (res, tr) := by
        simpa [platform_run_module, platform_run_module_body] using h
      unfold enable_platform at h2
      cases hex : api.platformExistsResult <;> simp [hex] at h2
      · rw [← h2.1] at hc
        simp at hc
      · rw [← h2.2]
        decide
    by_cases hd : s = "disabled"
    · subst hd
      have h2 : disable_platform api { changed := false, platform := [] } = (res, tr) := by
        simpa [platform_run_module, platform_run_module_body, he] using h
      unfold disable_platform at h2
      cases hex : api.platformExistsResult <;> simp [hex] at h2
      · rw [← h2.1] at hc
        simp at hc
      · rw [← h2.2]
        decide
    · simp [platform_run_module, he, hd] at h

/-- C8 witness: a concrete changed deletion has a mutating call in its
trace. -/
theorem c8_changed_implies_mutation_witness :
    [ApiCall.componentExistsCall, ApiCall.componentGetCall,
      ApiCall.componentDeleteCall].any ApiCall.isMutating = true :=
  (c8_changed_implies_mutation false "absent" c8_api).1
    { changed := true, component := c8_api.componentGetResult }
    [ApiCall.componentExistsCall, ApiCall.componentGetCall, ApiCall.componentDeleteCall]
    rfl rfl

/-- C9: the release committer changes only the `changed` field of the
state, and only from `false` to `true`: the `component` field is returned
untouched, a state entering with `changed=true` keeps it, and an open
release forces `changed=true`; concretely, on the present path with
structurally identical stored and upserted components (an empty diff) an
open release still turns the result into `changed=true`. -/
theorem c9_committer_frame_and_monotone (api : OneOpsApi) (st : ComponentResult) :
    (commit_latest_design_release api st).1.component = st.component
    ∧ (st.changed = true → (commit_latest_design_release api st).1.changed = true)
    ∧ (∀ r, api.latestRelease = some r → r.releaseState = "open" →
        (commit_latest_design_release api st).1.changed = true)
    ∧ component_run_module false "present" c9_api =
        Except.ok
          ({ changed := true, component := [("ciName", Value.str "svc")] },
           [ApiCall.componentExistsCall, ApiCall.componentGetCall,
            ApiCall.componentUpsertCall, ApiCall.releaseLatestCall,
            ApiCall.releaseCommitCall 9]) := by
  refine ⟨commit_preserves_component api st, commit_changed_mono api st, ?_, rfl⟩
  intro r h ho
  exact commit_changed_of_open api st r h ho

/-- C9 witness: at a concrete invocation with an open release a state
entering with `changed=false` leaves the committer with `changed=true`. -/
theorem c9_committer_frame_and_monotone_witness :
    (commit_latest_design_release c9_api { changed := false, component := [] }).1.changed
      = true :=
  (c9_committer_frame_and_monotone c9_api { changed := false, component := [] }).2.2.1
    { releaseId := 9, releaseState := "open" } rfl rfl

/-- C10: the cloud-info module is read-only: for every invocation it
returns `changed=false` with the `cloud` field set to the first component
of the value the remote get call returned, and its trace contains no
mutating call. -/
theorem c10_cloud_info_read_only (api : OneOpsApi) :
    cloud_info_run_module api =
      ({ changed := false, cloud := api.cloudGetResult.1 }, [ApiCall.cloudGetCall])
    ∧ (cloud_info_run_module api).2.any ApiCall.isMutating = false :=
  ⟨rfl, rfl⟩
